import Mathlib

/-!
Verification development for the ZetaSQL value-cast engine
(`zetasql/public/cast.cc`): the type-kind lattice (static cast table),
the derived coercion predicates, and the value cast dispatcher
`CastContext::CastValue`.

The embedding follows the source file closely.  External collaborators
that the source treats as opaque libraries (the numeric/string/time
conversion primitives of `zetasql/public/functions`, the `Coercer`,
the catalog conversion lookup, and proto serialization) are passed in
as explicit function parameters gathered in an `Env` record, mirroring
the spec's statement that they are out-of-scope pure libraries.
-/

namespace ZetaSQL

/-- Simple (non-parameterized) type kinds, as used by the cast table in
`InitializeZetaSQLCasts`.  These are the kinds whose types carry no child
types; `Type::IsSimpleType()` is true exactly for them. -/
inductive SimpleKind where
  | BOOL | INT32 | INT64 | UINT32 | UINT64
  | FLOAT | DOUBLE | NUMERIC | BIGNUMERIC
  | STRING | BYTES
  | DATE | TIMESTAMP | TIME | DATETIME
  | GEOGRAPHY | JSON
deriving DecidableEq, Repr

/-- The full `TypeKind` enumeration: every simple kind plus the
parameterized kinds ENUM, PROTO, ARRAY, STRUCT and the opaque EXTENDED
kind (extended types are outside the built-in lattice but still have a
kind; `Type::IsExtendedType()` identifies them). -/
inductive TypeKind where
  | BOOL | INT32 | INT64 | UINT32 | UINT64
  | FLOAT | DOUBLE | NUMERIC | BIGNUMERIC
  | STRING | BYTES
  | DATE | TIMESTAMP | TIME | DATETIME
  | GEOGRAPHY | JSON
  | ENUM | PROTO | ARRAY | STRUCT
  | EXTENDED
deriving DecidableEq, Repr

/-- Embeds a simple kind into the full kind enumeration. -/
def SimpleKind.toTypeKind : SimpleKind → TypeKind
  | .BOOL => .BOOL | .INT32 => .INT32 | .INT64 => .INT64
  | .UINT32 => .UINT32 | .UINT64 => .UINT64
  | .FLOAT => .FLOAT | .DOUBLE => .DOUBLE
  | .NUMERIC => .NUMERIC | .BIGNUMERIC => .BIGNUMERIC
  | .STRING => .STRING | .BYTES => .BYTES
  | .DATE => .DATE | .TIMESTAMP => .TIMESTAMP
  | .TIME => .TIME | .DATETIME => .DATETIME
  | .GEOGRAPHY => .GEOGRAPHY | .JSON => .JSON

/-- `CastFunctionType`: the cast class of a `(fromKind, toKind)` entry of
the static cast table. -/
inductive CastFunctionType where
  | IMPLICIT
  | EXPLICIT
  | EXPLICIT_OR_LITERAL
  | EXPLICIT_OR_LITERAL_OR_PARAMETER
deriving DecidableEq, Repr

/-- `SupportsImplicitCoercion` from cast.cc: true only for IMPLICIT. -/
def SupportsImplicitCoercion (type : CastFunctionType) : Bool :=
  type = CastFunctionType.IMPLICIT

/-- `SupportsLiteralCoercion` from cast.cc: true for IMPLICIT and the two
EXPLICIT_OR_LITERAL classes. -/
def SupportsLiteralCoercion (type : CastFunctionType) : Bool :=
  type = CastFunctionType.IMPLICIT ||
  type = CastFunctionType.EXPLICIT_OR_LITERAL ||
  type = CastFunctionType.EXPLICIT_OR_LITERAL_OR_PARAMETER

/-- `SupportsParameterCoercion` from cast.cc: true for IMPLICIT and
EXPLICIT_OR_LITERAL_OR_PARAMETER. -/
def SupportsParameterCoercion (type : CastFunctionType) : Bool :=
  type = CastFunctionType.IMPLICIT ||
  type = CastFunctionType.EXPLICIT_OR_LITERAL_OR_PARAMETER

/-- `SupportsExplicitCast` from cast.cc: true for all four cast classes. -/
def SupportsExplicitCast (type : CastFunctionType) : Bool :=
  type = CastFunctionType.IMPLICIT ||
  type = CastFunctionType.EXPLICIT ||
  type = CastFunctionType.EXPLICIT_OR_LITERAL ||
  type = CastFunctionType.EXPLICIT_OR_LITERAL_OR_PARAMETER

/-- A single row of the static cast table. -/
abbrev CastRow := (TypeKind × TypeKind) × CastFunctionType

/-- Rows of the static cast table whose source kind is BOOL, in source
order of `InitializeZetaSQLCasts`. -/
def castsFromBool : List CastRow :=
  [ ((.BOOL, .BOOL), .IMPLICIT),
    ((.BOOL, .INT32), .EXPLICIT),
    ((.BOOL, .INT64), .EXPLICIT),
    ((.BOOL, .UINT32), .EXPLICIT),
    ((.BOOL, .UINT64), .EXPLICIT),
    ((.BOOL, .STRING), .EXPLICIT) ]

/-- Rows of the static cast table whose source kind is INT32. -/
def castsFromInt32 : List CastRow :=
  [ ((.INT32, .BOOL), .EXPLICIT),
    ((.INT32, .INT32), .IMPLICIT),
    ((.INT32, .INT64), .IMPLICIT),
    ((.INT32, .UINT32), .EXPLICIT_OR_LITERAL),
    ((.INT32, .UINT64), .EXPLICIT_OR_LITERAL),
    ((.INT32, .FLOAT), .EXPLICIT_OR_LITERAL),
    ((.INT32, .DOUBLE), .IMPLICIT),
    ((.INT32, .STRING), .EXPLICIT),
    ((.INT32, .ENUM), .EXPLICIT_OR_LITERAL_OR_PARAMETER),
    ((.INT32, .NUMERIC), .IMPLICIT),
    ((.INT32, .BIGNUMERIC), .IMPLICIT) ]

/-- Rows of the static cast table whose source kind is INT64. -/
def castsFromInt64 : List CastRow :=
  [ ((.INT64, .BOOL), .EXPLICIT),
    ((.INT64, .INT32), .EXPLICIT_OR_LITERAL),
    ((.INT64, .INT64), .IMPLICIT),
    ((.INT64, .UINT32), .EXPLICIT_OR_LITERAL),
    ((.INT64, .UINT64), .EXPLICIT_OR_LITERAL),
    ((.INT64, .FLOAT), .EXPLICIT_OR_LITERAL),
    ((.INT64, .DOUBLE), .IMPLICIT),
    ((.INT64, .STRING), .EXPLICIT),
    ((.INT64, .ENUM), .EXPLICIT_OR_LITERAL_OR_PARAMETER),
    ((.INT64, .NUMERIC), .IMPLICIT),
    ((.INT64, .BIGNUMERIC), .IMPLICIT) ]

/-- Rows of the static cast table whose source kind is UINT32. -/
def castsFromUint32 : List CastRow :=
  [ ((.UINT32, .BOOL), .EXPLICIT),
    ((.UINT32, .INT32), .EXPLICIT_OR_LITERAL),
    ((.UINT32, .INT64), .IMPLICIT),
    ((.UINT32, .UINT32), .IMPLICIT),
    ((.UINT32, .UINT64), .IMPLICIT),
    ((.UINT32, .FLOAT), .EXPLICIT_OR_LITERAL),
    ((.UINT32, .DOUBLE), .IMPLICIT),
    ((.UINT32, .STRING), .EXPLICIT),
    ((.UINT32, .ENUM), .EXPLICIT_OR_LITERAL),
    ((.UINT32, .NUMERIC), .IMPLICIT),
    ((.UINT32, .BIGNUMERIC), .IMPLICIT) ]

/-- Rows of the static cast table whose source kind is UINT64. -/
def castsFromUint64 : List CastRow :=
  [ ((.UINT64, .BOOL), .EXPLICIT),
    ((.UINT64, .INT32), .EXPLICIT_OR_LITERAL),
    ((.UINT64, .INT64), .EXPLICIT_OR_LITERAL),
    ((.UINT64, .UINT32), .EXPLICIT_OR_LITERAL),
    ((.UINT64, .UINT64), .IMPLICIT),
    ((.UINT64, .FLOAT), .EXPLICIT_OR_LITERAL),
    ((.UINT64, .DOUBLE), .IMPLICIT),
    ((.UINT64, .STRING), .EXPLICIT),
    ((.UINT64, .ENUM), .EXPLICIT_OR_LITERAL),
    ((.UINT64, .NUMERIC), .IMPLICIT),
    ((.UINT64, .BIGNUMERIC), .IMPLICIT) ]

/-- Rows of the static cast table whose source kind is NUMERIC. -/
def castsFromNumeric : List CastRow :=
  [ ((.NUMERIC, .INT32), .EXPLICIT),
    ((.NUMERIC, .INT64), .EXPLICIT),
    ((.NUMERIC, .UINT32), .EXPLICIT),
    ((.NUMERIC, .UINT64), .EXPLICIT),
    ((.NUMERIC, .FLOAT), .EXPLICIT),
    ((.NUMERIC, .DOUBLE), .IMPLICIT),
    ((.NUMERIC, .STRING), .EXPLICIT),
    ((.NUMERIC, .NUMERIC), .IMPLICIT),
    ((.NUMERIC, .BIGNUMERIC), .IMPLICIT) ]

/-- Rows of the static cast table whose source kind is BIGNUMERIC. -/
def castsFromBigNumeric : List CastRow :=
  [ ((.BIGNUMERIC, .INT32), .EXPLICIT),
    ((.BIGNUMERIC, .INT64), .EXPLICIT),
    ((.BIGNUMERIC, .UINT32), .EXPLICIT),
    ((.BIGNUMERIC, .UINT64), .EXPLICIT),
    ((.BIGNUMERIC, .FLOAT), .EXPLICIT),
    ((.BIGNUMERIC, .DOUBLE), .IMPLICIT),
    ((.BIGNUMERIC, .STRING), .EXPLICIT),
    ((.BIGNUMERIC, .NUMERIC), .EXPLICIT),
    ((.BIGNUMERIC, .BIGNUMERIC), .IMPLICIT) ]

/-- Rows of the static cast table whose source kind is FLOAT. -/
def castsFromFloat : List CastRow :=
  [ ((.FLOAT, .INT32), .EXPLICIT),
    ((.FLOAT, .INT64), .EXPLICIT),
    ((.FLOAT, .UINT32), .EXPLICIT),
    ((.FLOAT, .UINT64), .EXPLICIT),
    ((.FLOAT, .FLOAT), .IMPLICIT),
    ((.FLOAT, .DOUBLE), .IMPLICIT),
    ((.FLOAT, .STRING), .EXPLICIT),
    ((.FLOAT, .NUMERIC), .EXPLICIT),
    ((.FLOAT, .BIGNUMERIC), .EXPLICIT) ]

/-- Rows of the static cast table whose source kind is DOUBLE. -/
def castsFromDouble : List CastRow :=
  [ ((.DOUBLE, .INT32), .EXPLICIT),
    ((.DOUBLE, .INT64), .EXPLICIT),
    ((.DOUBLE, .UINT32), .EXPLICIT),
    ((.DOUBLE, .UINT64), .EXPLICIT),
    ((.DOUBLE, .FLOAT), .EXPLICIT_OR_LITERAL),
    ((.DOUBLE, .DOUBLE), .IMPLICIT),
    ((.DOUBLE, .STRING), .EXPLICIT),
    ((.DOUBLE, .NUMERIC), .EXPLICIT_OR_LITERAL),
    ((.DOUBLE, .BIGNUMERIC), .EXPLICIT_OR_LITERAL) ]

/-- Rows of the static cast table whose source kind is STRING. -/
def castsFromString : List CastRow :=
  [ ((.STRING, .INT32), .EXPLICIT),
    ((.STRING, .INT64), .EXPLICIT),
    ((.STRING, .UINT32), .EXPLICIT),
    ((.STRING, .UINT64), .EXPLICIT),
    ((.STRING, .FLOAT), .EXPLICIT),
    ((.STRING, .DOUBLE), .EXPLICIT),
    ((.STRING, .STRING), .IMPLICIT),
    ((.STRING, .BYTES), .EXPLICIT),
    ((.STRING, .DATE), .EXPLICIT_OR_LITERAL_OR_PARAMETER),
    ((.STRING, .TIMESTAMP), .EXPLICIT_OR_LITERAL_OR_PARAMETER),
    ((.STRING, .TIME), .EXPLICIT_OR_LITERAL_OR_PARAMETER),
    ((.STRING, .DATETIME), .EXPLICIT_OR_LITERAL_OR_PARAMETER),
    ((.STRING, .ENUM), .EXPLICIT_OR_LITERAL_OR_PARAMETER),
    ((.STRING, .PROTO), .EXPLICIT_OR_LITERAL_OR_PARAMETER),
    ((.STRING, .BOOL), .EXPLICIT),
    ((.STRING, .NUMERIC), .EXPLICIT),
    ((.STRING, .BIGNUMERIC), .EXPLICIT),
    ((.STRING, .JSON), .EXPLICIT) ]

/-- Rows of the static cast table whose source kind is BYTES, DATE,
TIMESTAMP, TIME or DATETIME. -/
def castsFromBytesAndTemporal : List CastRow :=
  [ ((.BYTES, .BYTES), .IMPLICIT),
    ((.BYTES, .STRING), .EXPLICIT),
    ((.BYTES, .PROTO), .EXPLICIT_OR_LITERAL_OR_PARAMETER),
    ((.DATE, .DATE), .IMPLICIT),
    ((.DATE, .DATETIME), .IMPLICIT),
    ((.DATE, .TIMESTAMP), .EXPLICIT),
    ((.DATE, .STRING), .EXPLICIT),
    ((.TIMESTAMP, .DATE), .EXPLICIT),
    ((.TIMESTAMP, .DATETIME), .EXPLICIT),
    ((.TIMESTAMP, .TIME), .EXPLICIT),
    ((.TIMESTAMP, .TIMESTAMP), .IMPLICIT),
    ((.TIMESTAMP, .STRING), .EXPLICIT),
    ((.TIME, .TIME), .IMPLICIT),
    ((.TIME, .STRING), .EXPLICIT),
    ((.DATETIME, .DATE), .EXPLICIT),
    ((.DATETIME, .DATETIME), .IMPLICIT),
    ((.DATETIME, .STRING), .EXPLICIT),
    ((.DATETIME, .TIME), .EXPLICIT),
    ((.DATETIME, .TIMESTAMP), .EXPLICIT) ]

/-- Remaining rows of the static cast table: GEOGRAPHY, JSON, ENUM,
PROTO, and the non-simple identity rows at the end of
`InitializeZetaSQLCasts`. -/
def castsFromRest : List CastRow :=
  [ ((.GEOGRAPHY, .GEOGRAPHY), .IMPLICIT),
    ((.JSON, .JSON), .IMPLICIT),
    ((.JSON, .STRING), .EXPLICIT),
    ((.ENUM, .STRING), .EXPLICIT),
    ((.ENUM, .INT32), .EXPLICIT),
    ((.ENUM, .INT64), .EXPLICIT),
    ((.ENUM, .UINT32), .EXPLICIT),
    ((.ENUM, .UINT64), .EXPLICIT),
    ((.PROTO, .STRING), .EXPLICIT),
    ((.PROTO, .BYTES), .EXPLICIT),
    ((.ENUM, .ENUM), .IMPLICIT),
    ((.PROTO, .PROTO), .IMPLICIT),
    ((.ARRAY, .ARRAY), .IMPLICIT),
    ((.STRUCT, .STRUCT), .IMPLICIT) ]

/-- The static cast table built by `InitializeZetaSQLCasts`, listed in
source order.  The numeric cost attached to each entry by `AddToCastMap`
(`Type::GetTypeCoercionCost`) is an opaque ranking that the cast engine
never interprets, so it is omitted here.  `InsertIfNotPresent` keeps the
first entry for a key; lookup below therefore takes the first match. -/
def castMapList : List CastRow :=
  castsFromBool ++ castsFromInt32 ++ castsFromInt64 ++
  castsFromUint32 ++ castsFromUint64 ++ castsFromNumeric ++
  castsFromBigNumeric ++ castsFromFloat ++ castsFromDouble ++
  castsFromString ++ castsFromBytesAndTemporal ++ castsFromRest

/-- Lookup in the static cast table (`zetasql_base::FindOrNull` on the
`CastHashMap`), returning the cast class of a kind pair if present. -/
def lookupCast (p : TypeKind × TypeKind) : Option CastFunctionType :=
  (castMapList.find? (fun e => e.1 = p)).map (fun e => e.2)

/-- Membership test in the static cast table (`zetasql_base::ContainsKey`
on the `CastHashMap`). -/
def containsCast (p : TypeKind × TypeKind) : Bool :=
  (lookupCast p).isSome

/-!
## Types and values

The `Type` and `Value` model.  Types are interned and compared
structurally (`Type::Equals`); the enum and proto cases carry the
descriptor data the cast engine consults (`Type::Equivalent` compares
full descriptor names across descriptor pools).
-/

/-- Enum type definition data: the full proto name of the enum (what
`Type::Equivalent` compares) and the declared values as (number, name)
pairs (what `Value::Enum` and `Value::enum_name` consult).  Two
`EnumDef`s with the same name but different value lists model two
different definitions of the same enum. -/
structure EnumDef where
  name : String
  values : List (Int × String)
deriving DecidableEq, Repr

/-- Proto type definition data: the full message name (compared by
`Type::Equivalent`) and the descriptor's `options().map_entry()` flag
(consulted by `IsMapEntryCast`).  A `ProtoType` always has a non-null
descriptor, so the opaque-proto error branches of cast.cc (which its
comments call unreachable) do not arise. -/
structure ProtoDef where
  name : String
  mapEntry : Bool
deriving DecidableEq, Repr

/-- The type model: one constructor per kind family.  Simple kinds carry
no child data; enums and protos carry their definition data; arrays and
structs carry child types (struct fields are name/type pairs); extended
types are identified by an opaque id. -/
inductive ZType where
  | simple (k : SimpleKind)
  | enum (d : EnumDef)
  | proto (d : ProtoDef)
  | array (elem : ZType)
  | struct (fields : List (String × ZType))
  | extended (id : Nat)

mutual

/-- Structural equality of types (`Type::Equals`).  Spelled out by hand
because the automatic `DecidableEq` derivation does not handle the
nested field list. -/
def ZType.beq : ZType → ZType → Bool
  | .simple a, .simple b => a = b
  | .enum a, .enum b => a = b
  | .proto a, .proto b => a = b
  | .array a, .array b => ZType.beq a b
  | .struct fa, .struct fb => ZType.beqFields fa fb
  | .extended a, .extended b => a = b
  | _, _ => false

/-- Structural equality of struct field lists (names and types). -/
def ZType.beqFields : List (String × ZType) → List (String × ZType) → Bool
  | [], [] => true
  | (na, ta) :: ra, (nb, tb) :: rb =>
      na = nb && ZType.beq ta tb && ZType.beqFields ra rb
  | _, _ => false

end

/-- Fuel-indexed proof that `ZType.beq` and `ZType.beqFields` decide
structural equality. -/
theorem ZType.beq_iff_all (n : Nat) :
    (∀ a b : ZType, sizeOf a ≤ n → (ZType.beq a b = true ↔ a = b)) ∧
    (∀ fa fb : List (String × ZType), sizeOf fa ≤ n →
      (ZType.beqFields fa fb = true ↔ fa = fb)) := by
  induction n with
  | zero =>
    constructor
    · intro a b h; cases a <;> simp at h
    · intro fa fb h; cases fa <;> simp at h
  | succ n ih =>
    obtain ⟨ihA, ihF⟩ := ih
    constructor
    · intro a b h
      cases a <;> cases b <;>
        simp only [ZType.beq, decide_eq_true_eq] <;>
        simp only [ZType.simple.injEq, ZType.enum.injEq, ZType.proto.injEq,
          ZType.array.injEq, ZType.struct.injEq, ZType.extended.injEq,
          reduceCtorEq, iff_self, iff_false]
      case array.array a b =>
        have : sizeOf a ≤ n := by simp at h; omega
        exact ihA a b this
      case struct.struct fa fb =>
        have : sizeOf fa ≤ n := by simp at h; omega
        exact ihF fa fb this
    · intro fa fb h
      cases fa with
      | nil => cases fb <;> simp [ZType.beqFields]
      | cons hd ra =>
        cases fb with
        | nil => simp [ZType.beqFields]
        | cons hd2 rb =>
          obtain ⟨na, ta⟩ := hd
          obtain ⟨nb, tb⟩ := hd2
          have hta : sizeOf ta ≤ n := by simp at h; omega
          have hra : sizeOf ra ≤ n := by simp at h; omega
          simp [ZType.beqFields, ihA ta tb hta, ihF ra rb hra, and_assoc]

/-- `ZType.beq` decides structural equality of types. -/
theorem ZType.beq_iff (a b : ZType) : ZType.beq a b = true ↔ a = b :=
  (ZType.beq_iff_all (sizeOf a)).1 a b le_rfl

instance : DecidableEq ZType :=
  fun a b => decidable_of_iff (ZType.beq a b = true) (ZType.beq_iff a b)

/-- The kind of a type (`Type::kind()`). -/
def ZType.kind : ZType → TypeKind
  | .simple k => k.toTypeKind
  | .enum _ => .ENUM
  | .proto _ => .PROTO
  | .array _ => .ARRAY
  | .struct _ => .STRUCT
  | .extended _ => .EXTENDED

/-- `Type::IsSimpleType()`: true exactly for the unparameterized kinds
(including GEOGRAPHY and JSON); enum, proto, array, struct and extended
types are not simple. -/
def ZType.isSimpleType : ZType → Bool
  | .simple _ => true
  | _ => false

/-- `Type::IsExtendedType()`. -/
def ZType.isExtendedType : ZType → Bool
  | .extended _ => true
  | _ => false

/-- `Type::IsStruct()`. -/
def ZType.isStruct : ZType → Bool
  | .struct _ => true
  | _ => false

/-- Payload of a JSON value: either a validated, parsed document
(represented by its normalized rendering, which `ToString` returns) or an
unvalidated raw string (`Value::UnvalidatedJsonString`). -/
inductive JsonPayload where
  | validated (doc : String)
  | unvalidated (s : String)

/-- The value model (`Value`): either the invalid value (default
constructed), NULL of a type, or a concrete payload.  The payload
of FLOAT, DOUBLE, NUMERIC and BIGNUMERIC values is an opaque
representation handled only by the external conversion library; arrays
carry their element type and structs their field list so that NULL-free
typing is preserved. -/
inductive ZValue where
  | invalid
  | null (t : ZType)
  | bool (b : Bool)
  | int32 (n : Int)
  | int64 (n : Int)
  | uint32 (n : Nat)
  | uint64 (n : Nat)
  | float (rep : Nat)
  | double (rep : Nat)
  | numeric (rep : Int)
  | bignumeric (rep : Int)
  | string (s : String)
  | bytes (b : String)
  | date (days : Int)
  | timestamp (rep : Int)
  | time (rep : Int)
  | datetime (rep : Int)
  | geography (rep : Nat)
  | json (j : JsonPayload)
  | enum (d : EnumDef) (number : Int)
  | proto (d : ProtoDef) (wire : String)
  | array (elemType : ZType) (elems : List ZValue)
  | struct (fields : List (String × ZType)) (vals : List ZValue)
  | extended (id : Nat) (rep : Nat)

/-- The declared type of a value (`Value::type()`).  The invalid value
has no type; `CastContext::CastValue` rejects it before asking, so the
value returned for it here is never consulted. -/
def ZValue.typeOf : ZValue → ZType
  | .invalid => .simple .BOOL
  | .null t => t
  | .bool _ => .simple .BOOL
  | .int32 _ => .simple .INT32
  | .int64 _ => .simple .INT64
  | .uint32 _ => .simple .UINT32
  | .uint64 _ => .simple .UINT64
  | .float _ => .simple .FLOAT
  | .double _ => .simple .DOUBLE
  | .numeric _ => .simple .NUMERIC
  | .bignumeric _ => .simple .BIGNUMERIC
  | .string _ => .simple .STRING
  | .bytes _ => .simple .BYTES
  | .date _ => .simple .DATE
  | .timestamp _ => .simple .TIMESTAMP
  | .time _ => .simple .TIME
  | .datetime _ => .simple .DATETIME
  | .geography _ => .simple .GEOGRAPHY
  | .json _ => .simple .JSON
  | .enum d _ => .enum d
  | .proto d _ => .proto d
  | .array t _ => .array t
  | .struct fl _ => .struct fl
  | .extended i _ => .extended i

/-- `Value::is_valid()`. -/
def ZValue.isValid : ZValue → Bool
  | .invalid => false
  | _ => true

/-- `Value::is_null()`. -/
def ZValue.isNull : ZValue → Bool
  | .null _ => true
  | _ => false

/-- Smallest and largest `int32` payloads, used by the enum validity
check. -/
def int32Lo : Int := -(2 ^ 31)

/-- Upper bound (exclusive) of the `int32` range. -/
def int32Hi : Int := 2 ^ 31

/-- Whether an enum definition declares `n` as a value number.
Modelled from the spec: `Value::Enum` (value.cc is not part of the shown
sources) produces a valid enum value exactly when the number fits in
`int32` and the enum descriptor declares it ("bounds- and
definition-checked"). -/
@[irreducible] def EnumDef.validNumber (d : EnumDef) (n : Int) : Bool :=
  (int32Lo ≤ n && n < int32Hi) && d.values.any (fun p => p.1 = n)

/-- `Value::Enum(enum_type, number)`.  Modelled from the spec: returns
the invalid value when the number is out of range or undeclared. -/
def mkEnum (d : EnumDef) (n : Int) : ZValue :=
  if d.validNumber n then .enum d n else .invalid

/-- `Value::Enum(enum_type, name)` for the STRING→ENUM cast.  Modelled
from the spec: looks the name up in the enum definition and returns the
invalid value when it is not declared. -/
def mkEnumFromName (d : EnumDef) (s : String) : ZValue :=
  match d.values.find? (fun p => p.2 = s) with
  | some p => .enum d p.1
  | none => .invalid

/-- `Value::enum_name()`: the declared name of a valid enum value's
number.  Modelled from the spec; the empty string stands in for the
unreachable invalid case. -/
def enumName (d : EnumDef) (n : Int) : String :=
  match d.values.find? (fun p => p.1 = n) with
  | some p => p.2
  | none => ""

/-- Rendering of a type used in cast error messages.  Modelled from the
spec: `Type::DebugString` lives in the out-of-scope type library; only
the fact that each type renders deterministically matters to the cast
engine, so child types are elided here. -/
def ZType.debugString : ZType → String
  | .simple k => toString (repr k)
  | .enum d => "ENUM<" ++ d.name ++ ">"
  | .proto d => "PROTO<" ++ d.name ++ ">"
  | .array _ => "ARRAY<>"
  | .struct _ => "STRUCT<>"
  | .extended i => "EXTENDED#" ++ toString i

/-!
## The cast environment

The collaborators that cast.cc consumes through narrow interfaces: the
language options and default time zone, the `Coercer` predicate, the
catalog / supplied extended-type conversions, and the pure conversion
function library (`zetasql/public/functions`, proto and JSON parsing).
The spec declares all of these out of scope, so they are parameters of
the embedding, gathered in `Env`.
-/

/-- Cast error taxonomy, mirroring the status builders used in cast.cc:
`MakeSqlError`, `MakeEvalError`, `UnimplementedErrorBuilder`,
`FailedPreconditionErrorBuilder`, `InvalidArgumentErrorBuilder` and the
`ZETASQL_RET_CHECK` internal error. -/
inductive CastError where
  | sqlError (msg : String)
  | evalError (msg : String)
  | unimplemented (msg : String)
  | failedPrecondition (msg : String)
  | invalidArgument (msg : String)
  | internalError (msg : String)
deriving DecidableEq, Repr

/-- The language feature flags consulted by cast.cc. -/
structure LangOpts where
  protoMaps : Bool
  timestampNanos : Bool
  jsonNoValidation : Bool
  jsonLegacyParse : Bool

/-- External collaborators of the cast engine.  Every field models a
function that cast.cc calls but whose implementation the spec places
out of scope (conversion primitives return success or an evaluation
error, rendered here as `Except String`). -/
structure Env where
  lang : LangOpts
  tz : Int
  coercesTo : ZValue → ZType → Bool
  findConversionCast : ZValue → ZType → Except CastError ZValue
  suppliedConversionCast : ZValue → ZType → Except CastError ZValue
  numCast : SimpleKind → SimpleKind → ZValue → Except String ZValue
  numToString : SimpleKind → ZValue → Except String String
  stringToNum : SimpleKind → String → Except String ZValue
  stringToDate : String → Except String Int
  stringToTimestamp : Bool → String → Int → Except String Int
  timestampToString : Bool → Int → Int → Except String String
  dateToTimestamp : Int → Int → Except String Int
  timestampToDate : Int → Int → Except String Int
  dateToString : Int → Except String String
  stringToTime : Bool → String → Except String Int
  timeToString : Bool → Int → Except String String
  timestampToTime : Int → Int → Except String Int
  stringToDatetime : Bool → String → Except String Int
  datetimeToString : Bool → Int → Except String String
  datetimeToTimestamp : Int → Int → Except String Int
  timestampToDatetime : Int → Int → Except String Int
  datetimeToDate : Int → Except String Int
  dateToDatetime : Int → Int
  datetimeToTime : Int → Except String Int
  parseJson : Bool → String → Except String String
  utf8Ok : String → Bool
  stringToProto : ProtoDef → String → Except String String
  protoToString : ProtoDef → String → Except String String
  mapFieldTypes : ProtoDef → Except String (ZType × ZType)
  mapEntrySerialize : ZValue → ZValue → ProtoDef → Except String String

/-- The two concrete `CastContext` subclasses: `CastContextWithValidation`
(used by the public `CastValue`; carries an optional catalog) and
`CastContextWithoutValidation` (used by
`internal::CastValueWithoutTypeValidation`; carries an optional extended
conversion function).  The Boolean records whether the optional
collaborator is present. -/
inductive CastCtx where
  | withValidation (hasCatalog : Bool)
  | withoutValidation (hasConversion : Bool)

/-- `CastContext::CastWithExtendedType`, resolved per subclass: the
validated context requires a catalog and uses `Catalog::FindConversion`;
the unvalidated context requires a supplied conversion function.  The
"extened" typo is the source's. -/
def castWithExtendedType (env : Env) (ctx : CastCtx) (v : ZValue) (t : ZType) :
    Except CastError ZValue :=
  match ctx with
  | .withValidation hasCatalog =>
      if hasCatalog then env.findConversionCast v t
      else .error (.failedPrecondition
        "Attempt to cast a Value of extened type without providing a Catalog")
  | .withoutValidation hasConversion =>
      if hasConversion then env.suppliedConversionCast v t
      else .error (.failedPrecondition
        "Attempt to cast a Value of extened type without providing an extended conversion function")

/-- `CastContext::ValidateCoercion`, resolved per subclass: the validated
context asks the `Coercer` (with `is_explicit` set) and turns a refusal
into a SqlError; the unvalidated context always accepts. -/
def validateCoercion (env : Env) (ctx : CastCtx) (v : ZValue) (t : ZType) :
    Except CastError Unit :=
  match ctx with
  | .withValidation _ =>
      if env.coercesTo v t then .ok ()
      else .error (.sqlError ("Unsupported cast from " ++
        ZType.debugString (ZValue.typeOf v) ++ " to " ++ ZType.debugString t))
  | .withoutValidation _ => .ok ()

/-- Lifts an external conversion-library result into a cast result; the
library reports failures as evaluation errors. -/
def evalLift {α : Type} : Except String α → Except CastError α
  | .ok a => .ok a
  | .error m => .error (.evalError m)

/-- `functions::Convert` to `int32`: value-preserving with range check. -/
@[irreducible] def convToInt32 (n : Int) : Except CastError ZValue :=
  if int32Lo ≤ n ∧ n < int32Hi then .ok (.int32 n)
  else .error (.evalError ("int32 out of range: " ++ toString n))

/-- `functions::Convert` to `int64`: value-preserving with range check. -/
@[irreducible] def convToInt64 (n : Int) : Except CastError ZValue :=
  if -(2 ^ 63) ≤ n ∧ n < 2 ^ 63 then .ok (.int64 n)
  else .error (.evalError ("int64 out of range: " ++ toString n))

/-- `functions::Convert` to `uint32`: value-preserving with range check. -/
@[irreducible] def convToUint32 (n : Int) : Except CastError ZValue :=
  if 0 ≤ n ∧ n < 2 ^ 32 then .ok (.uint32 n.toNat)
  else .error (.evalError ("uint32 out of range: " ++ toString n))

/-- `functions::Convert` to `uint64`: value-preserving with range check. -/
@[irreducible] def convToUint64 (n : Int) : Except CastError ZValue :=
  if 0 ≤ n ∧ n < 2 ^ 64 then .ok (.uint64 n.toNat)
  else .error (.evalError ("uint64 out of range: " ++ toString n))

/-- `functions::Convert` from an integer to `bool` (C++ semantics:
nonzero is true; never fails). -/
def convToBool (n : Int) : Except CastError ZValue :=
  .ok (.bool (decide (n ≠ 0)))

/-- Payload of a bool as an integer (C++ semantics: false is 0, true
is 1), the source side of `functions::Convert<bool, T>`. -/
def boolToInt (b : Bool) : Int :=
  if b then 1 else 0

/-- `functions::NumericToString<bool>`: "true" or "false". -/
def boolToString (b : Bool) : String :=
  if b then "true" else "false"

/-- Payload of a bool as a natural number, for the unsigned targets of
`functions::Convert<bool, T>`. -/
def boolToNat (b : Bool) : Nat :=
  if b then 1 else 0

/-- Two's-complement wrap of a `uint64` payload into `int64`
(`static_cast<int64_t>(v.uint64_value())` in the UINT64→ENUM case). -/
@[irreducible] def toInt64Wrap (u : Nat) : Int :=
  (((u : Int) + 2 ^ 63) % 2 ^ 64) - 2 ^ 63

/-- `Type::Equivalent`.  Modelled from the spec: two enum or proto types
are equivalent when their definitions have the same full name (possibly
from different descriptor pools); cast.cc consults this only for the
ENUM→ENUM and PROTO→PROTO cases.  Other types fall back to structural
equality. -/
def ZType.equivalent : ZType → ZType → Bool
  | .enum a, .enum b => a.name = b.name
  | .proto a, .proto b => a.name = b.name
  | a, b => ZType.beq a b

/-- `IsMapEntryCast`: the source type is a two-field struct and the
target is a proto whose descriptor options mark it as a map entry. -/
def isMapEntryCast : ZType → ZType → Bool
  | .struct fs, .proto d => fs.length = 2 && d.mapEntry
  | _, _ => false

/-- Shared body of the INT32/INT64/UINT32 → ENUM cases: build
`Value::Enum(to_type, v.ToInt64())` and fail with an evaluation error if
the number is not a declared enum value. -/
def castIntToEnum (i : Int) (d : EnumDef) : Except CastError ZValue :=
  if d.validNumber i then .ok (.enum d i)
  else .error (.evalError ("Out of range cast of integer " ++ toString i ++
    " to enum type " ++ ZType.debugString (.enum d)))

/-- The UINT64→ENUM case: wrap the payload two's-complement into int64
and build the enum value, with the out-of-range error printing the
unsigned payload. -/
def castUint64ToEnum (n : Nat) (d : EnumDef) : Except CastError ZValue :=
  if d.validNumber (toInt64Wrap n) then .ok (.enum d (toInt64Wrap n))
  else .error (.evalError ("Out of range cast of integer " ++ toString n ++
    " to enum type " ++ ZType.debugString (.enum d)))

/-- The STRING→ENUM case: `Value::Enum(to_type, v.string_value())`, with
an invalid name yielding the out-of-range evaluation error. -/
def castStringToEnum (d : EnumDef) (s : String) : Except CastError ZValue :=
  match mkEnumFromName d s with
  | .invalid => .error (.evalError ("Out of range cast of string '" ++ s ++
      "' to enum type " ++ ZType.debugString (.enum d)))
  | val => .ok val

/-- The ENUM→ENUM case: the definitions must be equivalent (a static
SqlError otherwise), and the number is re-checked against the target
definition (a dynamic error when undeclared). -/
def castEnumToEnum (d : EnumDef) (n : Int) (d2 : EnumDef) :
    Except CastError ZValue :=
  if ZType.equivalent (.enum d) (.enum d2) = false then
    .error (.sqlError ("Invalid enum cast from " ++ ZType.debugString (.enum d) ++
      " to " ++ ZType.debugString (.enum d2)))
  else if d2.validNumber n then .ok (.enum d2 n)
  else .error (.evalError ("Out of range enum value " ++ toString n ++
    " when converting enum type " ++ ZType.debugString (.enum d2) ++
    " to a different definition of the same enum"))

/-- The PROTO→PROTO case: the descriptors must be equivalent (a static
SqlError otherwise); the wire bytes are reinterpreted without
validation. -/
def castProtoToProto (d : ProtoDef) (w : String) (d2 : ProtoDef) :
    Except CastError ZValue :=
  if ZType.equivalent (.proto d) (.proto d2) = false then
    .error (.sqlError ("Invalid proto cast from " ++ ZType.debugString (.proto d) ++
      " to " ++ ZType.debugString (.proto d2)))
  else .ok (.proto d2 w)

/-- The BYTES→STRING case: the bytes must be well-formed UTF-8. -/
def castBytesToString (env : Env) (b : String) : Except CastError ZValue :=
  if env.utf8Ok b then .ok (.string b)
  else .error (.evalError "Invalid cast of bytes to UTF8 string")

/-- The STRING→JSON case: an unvalidated wrap under
FEATURE_JSON_NO_VALIDATION, a parse (legacy-flagged) otherwise. -/
def castStringToJson (env : Env) (s : String) : Except CastError ZValue :=
  if env.lang.jsonNoValidation then .ok (.json (.unvalidated s))
  else
    match env.parseJson env.lang.jsonLegacyParse s with
    | .error m => .error (.evalError m)
    | .ok doc => .ok (.json (.validated doc))

/-- The STRING→PROTO case: text-format parse and reserialization through
the external library. -/
def castStringToProto (env : Env) (d : ProtoDef) (s : String) :
    Except CastError ZValue :=
  match env.stringToProto d s with
  | .error m => .error (.evalError m)
  | .ok wire => .ok (.proto d wire)

/-- The PROTO→STRING case: wire parse and text-format print through the
external library. -/
def castProtoToString (env : Env) (d : ProtoDef) (w : String) :
    Except CastError ZValue :=
  match env.protoToString d w with
  | .error m => .error (.evalError m)
  | .ok s => .ok (.string s)

/-- The JSON→STRING case: `ToString` of a validated document, the raw
string of an unvalidated one. -/
def jsonToString : JsonPayload → String
  | .validated doc => doc
  | .unvalidated s => s

/-- The non-recursive arms of the dispatch switch of
`CastContext::CastValue`: every `(fromKind, toKind)` case except
STRUCT→STRUCT and ARRAY→ARRAY (which recurse and stay in `castValue`).
The default arm is the switch's Unimplemented error. -/
def dispatchScalar (env : Env) (v : ZValue) (t : ZType) : Except CastError ZValue :=
  match v, t with
    | .int32 n, .simple .INT64 => .ok (.int64 n)
    | .int32 n, .simple .UINT32 => convToUint32 n
    | .int32 n, .simple .UINT64 => convToUint64 n
    | .int32 n, .simple .BOOL => convToBool n
    | .int32 n, .simple .FLOAT => evalLift (env.numCast .INT32 .FLOAT (.int32 n))
    | .int32 n, .simple .DOUBLE => evalLift (env.numCast .INT32 .DOUBLE (.int32 n))
    | .int32 n, .simple .STRING => .ok (.string (toString n))
    | .int32 n, .simple .NUMERIC => evalLift (env.numCast .INT32 .NUMERIC (.int32 n))
    | .int32 n, .simple .BIGNUMERIC => evalLift (env.numCast .INT32 .BIGNUMERIC (.int32 n))

    | .uint32 n, .simple .INT32 => convToInt32 (n : Int)
    | .uint32 n, .simple .INT64 => .ok (.int64 (n : Int))
    | .uint32 n, .simple .UINT64 => .ok (.uint64 n)
    | .uint32 n, .simple .BOOL => convToBool (n : Int)
    | .uint32 n, .simple .FLOAT => evalLift (env.numCast .UINT32 .FLOAT (.uint32 n))
    | .uint32 n, .simple .DOUBLE => evalLift (env.numCast .UINT32 .DOUBLE (.uint32 n))
    | .uint32 n, .simple .STRING => .ok (.string (toString n))
    | .uint32 n, .simple .NUMERIC => evalLift (env.numCast .UINT32 .NUMERIC (.uint32 n))
    | .uint32 n, .simple .BIGNUMERIC => evalLift (env.numCast .UINT32 .BIGNUMERIC (.uint32 n))

    | .int64 n, .simple .INT32 => convToInt32 n
    | .int64 n, .simple .UINT32 => convToUint32 n
    | .int64 n, .simple .UINT64 => convToUint64 n
    | .int64 n, .simple .BOOL => convToBool n
    | .int64 n, .simple .FLOAT => evalLift (env.numCast .INT64 .FLOAT (.int64 n))
    | .int64 n, .simple .DOUBLE => evalLift (env.numCast .INT64 .DOUBLE (.int64 n))
    | .int64 n, .simple .STRING => .ok (.string (toString n))
    | .int64 n, .simple .NUMERIC => evalLift (env.numCast .INT64 .NUMERIC (.int64 n))
    | .int64 n, .simple .BIGNUMERIC => evalLift (env.numCast .INT64 .BIGNUMERIC (.int64 n))

    | .uint64 n, .simple .INT32 => convToInt32 (n : Int)
    | .uint64 n, .simple .INT64 => convToInt64 (n : Int)
    | .uint64 n, .simple .UINT32 => convToUint32 (n : Int)
    | .uint64 n, .simple .BOOL => convToBool (n : Int)
    | .uint64 n, .simple .FLOAT => evalLift (env.numCast .UINT64 .FLOAT (.uint64 n))
    | .uint64 n, .simple .DOUBLE => evalLift (env.numCast .UINT64 .DOUBLE (.uint64 n))
    | .uint64 n, .simple .STRING => .ok (.string (toString n))
    | .uint64 n, .simple .NUMERIC => evalLift (env.numCast .UINT64 .NUMERIC (.uint64 n))
    | .uint64 n, .simple .BIGNUMERIC => evalLift (env.numCast .UINT64 .BIGNUMERIC (.uint64 n))

    | .bool b, .simple .INT32 => .ok (.int32 (boolToInt b))
    | .bool b, .simple .INT64 => .ok (.int64 (boolToInt b))
    | .bool b, .simple .UINT32 => .ok (.uint32 (boolToNat b))
    | .bool b, .simple .UINT64 => .ok (.uint64 (boolToNat b))
    | .bool b, .simple .STRING => .ok (.string (boolToString b))

    | .float r, .simple .INT32 => evalLift (env.numCast .FLOAT .INT32 (.float r))
    | .float r, .simple .INT64 => evalLift (env.numCast .FLOAT .INT64 (.float r))
    | .float r, .simple .UINT32 => evalLift (env.numCast .FLOAT .UINT32 (.float r))
    | .float r, .simple .UINT64 => evalLift (env.numCast .FLOAT .UINT64 (.float r))
    | .float r, .simple .DOUBLE => evalLift (env.numCast .FLOAT .DOUBLE (.float r))
    | .float r, .simple .STRING => evalLift ((env.numToString .FLOAT (.float r)).map ZValue.string)
    | .float r, .simple .NUMERIC => evalLift (env.numCast .FLOAT .NUMERIC (.float r))
    | .float r, .simple .BIGNUMERIC => evalLift (env.numCast .FLOAT .BIGNUMERIC (.float r))

    | .double r, .simple .INT32 => evalLift (env.numCast .DOUBLE .INT32 (.double r))
    | .double r, .simple .INT64 => evalLift (env.numCast .DOUBLE .INT64 (.double r))
    | .double r, .simple .UINT32 => evalLift (env.numCast .DOUBLE .UINT32 (.double r))
    | .double r, .simple .UINT64 => evalLift (env.numCast .DOUBLE .UINT64 (.double r))
    | .double r, .simple .FLOAT => evalLift (env.numCast .DOUBLE .FLOAT (.double r))
    | .double r, .simple .STRING => evalLift ((env.numToString .DOUBLE (.double r)).map ZValue.string)
    | .double r, .simple .NUMERIC => evalLift (env.numCast .DOUBLE .NUMERIC (.double r))
    | .double r, .simple .BIGNUMERIC => evalLift (env.numCast .DOUBLE .BIGNUMERIC (.double r))

    | .int32 n, .enum d => castIntToEnum n d
    | .int64 n, .enum d => castIntToEnum n d
    | .uint32 n, .enum d => castIntToEnum (n : Int) d
    | .uint64 n, .enum d => castUint64ToEnum n d

    | .string s, .simple .BOOL => evalLift (env.stringToNum .BOOL s)
    | .string s, .simple .INT32 => evalLift (env.stringToNum .INT32 s)
    | .string s, .simple .INT64 => evalLift (env.stringToNum .INT64 s)
    | .string s, .simple .UINT32 => evalLift (env.stringToNum .UINT32 s)
    | .string s, .simple .UINT64 => evalLift (env.stringToNum .UINT64 s)
    | .string s, .simple .FLOAT => evalLift (env.stringToNum .FLOAT s)
    | .string s, .simple .DOUBLE => evalLift (env.stringToNum .DOUBLE s)
    | .string s, .simple .NUMERIC => evalLift (env.stringToNum .NUMERIC s)
    | .string s, .simple .BIGNUMERIC => evalLift (env.stringToNum .BIGNUMERIC s)

    | .string s, .enum d => castStringToEnum d s

    | .string s, .simple .DATE => evalLift ((env.stringToDate s).map ZValue.date)
    | .string s, .simple .TIMESTAMP =>
      evalLift ((env.stringToTimestamp env.lang.timestampNanos s env.tz).map ZValue.timestamp)
    | .string s, .simple .JSON => castStringToJson env s

    | .timestamp r, .simple .STRING =>
      evalLift ((env.timestampToString env.lang.timestampNanos r env.tz).map ZValue.string)
    | .date d0, .simple .TIMESTAMP =>
      evalLift ((env.dateToTimestamp d0 env.tz).map ZValue.timestamp)
    | .timestamp r, .simple .DATE =>
      evalLift ((env.timestampToDate r env.tz).map ZValue.date)

    | .string s, .simple .BYTES => .ok (.bytes s)

    | .string s, .proto d => castStringToProto env d s

    | .bytes b, .simple .STRING => castBytesToString env b

    | .bytes b, .proto d => .ok (.proto d b)

    | .date d0, .simple .STRING => evalLift ((env.dateToString d0).map ZValue.string)

    | .enum d n, .simple .STRING => .ok (.string (enumName d n))

    | .enum _ n, .simple .INT32 => .ok (.int32 n)
    | .enum _ n, .simple .INT64 => .ok (.int64 n)
    | .enum _ n, .simple .UINT32 => convToUint32 n
    | .enum _ n, .simple .UINT64 => convToUint64 n

    | .enum d n, .enum d2 => castEnumToEnum d n d2

    | .string s, .simple .TIME =>
      evalLift ((env.stringToTime env.lang.timestampNanos s).map ZValue.time)
    | .time r, .simple .STRING =>
      evalLift ((env.timeToString env.lang.timestampNanos r).map ZValue.string)
    | .timestamp r, .simple .TIME =>
      evalLift ((env.timestampToTime r env.tz).map ZValue.time)

    | .string s, .simple .DATETIME =>
      evalLift ((env.stringToDatetime env.lang.timestampNanos s).map ZValue.datetime)
    | .datetime r, .simple .STRING =>
      evalLift ((env.datetimeToString env.lang.timestampNanos r).map ZValue.string)
    | .datetime r, .simple .TIMESTAMP =>
      evalLift ((env.datetimeToTimestamp r env.tz).map ZValue.timestamp)
    | .timestamp r, .simple .DATETIME =>
      evalLift ((env.timestampToDatetime r env.tz).map ZValue.datetime)
    | .datetime r, .simple .DATE =>
      evalLift ((env.datetimeToDate r).map ZValue.date)
    | .date d0, .simple .DATETIME => .ok (.datetime (env.dateToDatetime d0))
    | .datetime r, .simple .TIME =>
      evalLift ((env.datetimeToTime r).map ZValue.time)

    | .proto d w, .simple .STRING => castProtoToString env d w

    | .proto _ w, .simple .BYTES => .ok (.bytes w)

    | .proto d w, .proto d2 => castProtoToProto d w d2

    | .numeric r, .simple .INT32 => evalLift (env.numCast .NUMERIC .INT32 (.numeric r))
    | .numeric r, .simple .INT64 => evalLift (env.numCast .NUMERIC .INT64 (.numeric r))
    | .numeric r, .simple .UINT32 => evalLift (env.numCast .NUMERIC .UINT32 (.numeric r))
    | .numeric r, .simple .UINT64 => evalLift (env.numCast .NUMERIC .UINT64 (.numeric r))
    | .numeric r, .simple .FLOAT => evalLift (env.numCast .NUMERIC .FLOAT (.numeric r))
    | .numeric r, .simple .DOUBLE => evalLift (env.numCast .NUMERIC .DOUBLE (.numeric r))
    | .numeric r, .simple .BIGNUMERIC => evalLift (env.numCast .NUMERIC .BIGNUMERIC (.numeric r))
    | .numeric r, .simple .STRING => evalLift ((env.numToString .NUMERIC (.numeric r)).map ZValue.string)

    | .bignumeric r, .simple .INT32 => evalLift (env.numCast .BIGNUMERIC .INT32 (.bignumeric r))
    | .bignumeric r, .simple .INT64 => evalLift (env.numCast .BIGNUMERIC .INT64 (.bignumeric r))
    | .bignumeric r, .simple .UINT32 => evalLift (env.numCast .BIGNUMERIC .UINT32 (.bignumeric r))
    | .bignumeric r, .simple .UINT64 => evalLift (env.numCast .BIGNUMERIC .UINT64 (.bignumeric r))
    | .bignumeric r, .simple .FLOAT => evalLift (env.numCast .BIGNUMERIC .FLOAT (.bignumeric r))
    | .bignumeric r, .simple .DOUBLE => evalLift (env.numCast .BIGNUMERIC .DOUBLE (.bignumeric r))
    | .bignumeric r, .simple .NUMERIC => evalLift (env.numCast .BIGNUMERIC .NUMERIC (.bignumeric r))
    | .bignumeric r, .simple .STRING => evalLift ((env.numToString .BIGNUMERIC (.bignumeric r)).map ZValue.string)

    | .json j, .simple .STRING => .ok (.string (jsonToString j))

    | w, t2 => .error (.unimplemented ("Unimplemented cast from " ++
        ZType.debugString w.typeOf ++ " to " ++ ZType.debugString t2))

/-- Value accessor: the field values of a struct value (`Value::fields()`);
empty for any other value.  Accessing the fields of a NULL struct is fatal
in the source; callers below model that with an internal error on the
empty list. -/
def ZValue.structVals : ZValue → List ZValue
  | .struct _ vs => vs
  | _ => []

/-- Value accessor: the elements of an array value (`Value::elements()`);
empty for any other value. -/
def ZValue.arrayElems : ZValue → List ZValue
  | .array _ es => es
  | _ => []

/-- Type accessor: the field list of a struct type
(`StructType::fields()`). -/
def ZType.structFieldList : ZType → List (String × ZType)
  | .struct fl => fl
  | _ => []

/-- Type accessor: the element type of an array type
(`ArrayType::element_type()`). -/
def ZType.arrayElemType : ZType → ZType
  | .array e => e
  | _ => .simple .BOOL

/-- Type accessor: the definition data of a proto type. -/
def ZType.protoDef : ZType → ProtoDef
  | .proto d => d
  | _ => ⟨"", false⟩

/-- The NULL branch of `CastContext::CastValue`: a NULL of a non-simple
type whose kind equals the target kind must pass `ValidateCoercion`
before becoming NULL of the target type; every other legal NULL becomes
NULL of the target type directly. -/
def castNull (env : Env) (ctx : CastCtx) (v : ZValue) (t : ZType) :
    Except CastError ZValue :=
  if v.typeOf.isSimpleType = false ∧ v.typeOf.kind = t.kind then
    match validateCoercion env ctx v t with
    | .error e => .error e
    | .ok _ => .ok (.null t)
  else .ok (.null t)

/-- Lists have positive size, used by the termination argument below. -/
theorem list_sizeOf_pos {α : Type} [SizeOf α] (l : List α) : 0 < sizeOf l := by
  cases l <;> simp

/-- Types have positive size, used by the termination argument below. -/
theorem ztype_sizeOf_pos (t : ZType) : 0 < sizeOf t := by
  cases t <;> simp

/-- A true `isMapEntryCast` pins the source kind to STRUCT. -/
theorem isMapEntryCast_kind {a b : ZType} (h : isMapEntryCast a b = true) :
    a.kind = TypeKind.STRUCT := by
  cases a <;> cases b <;> simp_all [isMapEntryCast, ZType.kind]

/-- A true `isMapEntryCast` pins the target kind to PROTO. -/
theorem isMapEntryCast_target_kind {a b : ZType} (h : isMapEntryCast a b = true) :
    b.kind = TypeKind.PROTO := by
  cases a <;> cases b <;> simp_all [isMapEntryCast, ZType.kind]

/-- The field values of a valid struct-kinded value are smaller than the
value, for the termination argument. -/
theorem structVals_sizeOf_lt (v : ZValue) (h : ¬v.isValid = false)
    (hk : v.typeOf.kind = TypeKind.STRUCT) :
    sizeOf v.structVals < sizeOf v := by
  cases v <;>
    simp_all [ZValue.structVals, ZValue.typeOf, ZValue.isValid, ZType.kind,
      SimpleKind.toTypeKind]
  case null t =>
    have := ztype_sizeOf_pos t
    simp
    omega

/-- The elements of a valid array-kinded value are smaller than the
value, for the termination argument. -/
theorem arrayElems_sizeOf_lt (v : ZValue) (h : ¬v.isValid = false)
    (hk : v.typeOf.kind = TypeKind.ARRAY) :
    sizeOf v.arrayElems < sizeOf v := by
  cases v <;>
    simp_all [ZValue.arrayElems, ZValue.typeOf, ZValue.isValid, ZType.kind,
      SimpleKind.toTypeKind]
  case null t =>
    have := ztype_sizeOf_pos t
    simp
    omega

mutual

/-- `CastContext::CastValue` from cast.cc: validity check, identity
short-circuit, extended-type delegation, the proto-map special case,
static table lookup, NULL handling, then the dispatch switch on the
`(fromKind, toKind)` pair.  The STRUCT→STRUCT and ARRAY→ARRAY arms of
the switch recurse and live here (with `castStructToStruct`,
`castFields` and `castElems`); all other arms, including the default
Unimplemented branch, are in `dispatchScalar`. -/
def castValue (env : Env) (ctx : CastCtx) (v : ZValue) (t : ZType) :
    Except CastError ZValue :=
  if hv : v.isValid = false then .error (.internalError "from_value.is_valid()")
  else if v.typeOf = t then .ok v
  else if v.typeOf.isExtendedType || t.isExtendedType then
    castWithExtendedType env ctx v t
  else if hm : env.lang.protoMaps && isMapEntryCast v.typeOf t then
    doMapEntry env v.structVals t.protoDef
  else if containsCast (v.typeOf.kind, t.kind) = false then
    .error (.sqlError ("Unsupported cast from " ++ v.typeOf.debugString ++
      " to " ++ t.debugString))
  else if v.isNull then castNull env ctx v t
  else if hs : v.typeOf.kind = TypeKind.STRUCT ∧ t.kind = TypeKind.STRUCT then
    castStructToStruct env ctx v.typeOf.structFieldList v.structVals t.structFieldList
  else if ha : v.typeOf.kind = TypeKind.ARRAY ∧ t.kind = TypeKind.ARRAY then
    match validateCoercion env ctx v t with
    | .error e => .error e
    | .ok _ =>
      match castElems env ctx v.arrayElems t.arrayElemType with
      | .error e => .error e
      | .ok cs => .ok (.array t.arrayElemType cs)
  else dispatchScalar env v t
termination_by 2 * sizeOf v + 1
decreasing_by
  · have h2 : isMapEntryCast v.typeOf t = true := by
      revert hm
      cases env.lang.protoMaps <;> simp
    have := structVals_sizeOf_lt v hv (isMapEntryCast_kind h2)
    omega
  · have := structVals_sizeOf_lt v hv hs.1
    omega
  · have := arrayElems_sizeOf_lt v hv ha.1
    omega

/-- `DoMapEntryCast`: cast the two fields of the struct value to the map
entry's key and value types (through the public `CastValue`, i.e. a
fresh validated context with no catalog, as the source does), then
serialize them into the map-entry proto.  A list that does not have
exactly two entries models the source's fatal field access on a NULL or
malformed struct. -/
def doMapEntry (env : Env) (vals : List ZValue) (d : ProtoDef) :
    Except CastError ZValue :=
  match vals with
  | [] => .error (.internalError "IsMapEntryCast(from_value.type(), to_type)")
  | _ :: [] => .error (.internalError "IsMapEntryCast(from_value.type(), to_type)")
  | _ :: _ :: _ :: _ =>
    .error (.internalError "IsMapEntryCast(from_value.type(), to_type)")
  | kv :: vv :: [] =>
    (match env.mapFieldTypes d with
     | .error m => .error (.internalError m)
     | .ok (kt, vt) =>
       match castValue env (.withValidation false) kv kt with
       | .error e => .error e
       | .ok k =>
         match castValue env (.withValidation false) vv vt with
         | .error e => .error e
         | .ok w =>
           match env.mapEntrySerialize k w d with
           | .error m => .error (.evalError m)
           | .ok wire => .ok (.proto d wire))
termination_by 2 * sizeOf vals + 1
decreasing_by
  all_goals simp
  all_goals omega

/-- The STRUCT→STRUCT arm of the dispatch switch: the arities of the two
struct types must match (a static SqlError otherwise, whatever the
values); then each field value is cast to the corresponding target field
type, in field order. -/
def castStructToStruct (env : Env) (ctx : CastCtx)
    (fl : List (String × ZType)) (vals : List ZValue)
    (fl2 : List (String × ZType)) : Except CastError ZValue :=
  if fl.length ≠ fl2.length then
    .error (.sqlError ("Unsupported cast from " ++
      ZType.debugString (.struct fl) ++ " to " ++ ZType.debugString (.struct fl2)))
  else
    match castFields env ctx vals (fl2.map (fun p => p.2)) with
    | .error e => .error e
    | .ok cs => .ok (.struct fl2 cs)
termination_by 2 * sizeOf vals + 1
decreasing_by
  omega

/-- The field loop of the STRUCT→STRUCT case: cast each field value to
the corresponding target field type, in field order, stopping at the
first error. -/
def castFields (env : Env) (ctx : CastCtx) :
    List ZValue → List ZType → Except CastError (List ZValue)
  | [], _ => .ok []
  | _ :: _, [] => .ok []
  | fv :: rest, ft :: fts =>
    match castValue env ctx fv ft with
    | .error e => .error e
    | .ok c =>
      match castFields env ctx rest fts with
      | .error e => .error e
      | .ok cs => .ok (c :: cs)
termination_by vs _ => 2 * sizeOf vs
decreasing_by
  all_goals simp
  all_goals omega

/-- The element loop of the ARRAY→ARRAY case: NULL elements become NULL
of the target element type without a recursive call; other elements are
cast recursively. -/
def castElems (env : Env) (ctx : CastCtx) :
    List ZValue → ZType → Except CastError (List ZValue)
  | [], _ => .ok []
  | e :: rest, et =>
    if e.isNull then
      match castElems env ctx rest et with
      | .error er => .error er
      | .ok cs => .ok (.null et :: cs)
    else
      match castValue env ctx e et with
      | .error er => .error er
      | .ok c =>
        match castElems env ctx rest et with
        | .error er => .error er
        | .ok cs => .ok (c :: cs)
termination_by vs _ => 2 * sizeOf vs
decreasing_by
  all_goals simp
  all_goals omega

end

/-- A concrete environment used by the witnesses: all external conversion
primitives refuse (their behavior is out of scope), the coercion
predicate accepts, and no extended conversions are registered. -/
def sampleEnv : Env where
  lang := ⟨false, false, false, false⟩
  tz := 0
  coercesTo := fun _ _ => true
  findConversionCast := fun _ _ => .error (.evalError "no conversion")
  suppliedConversionCast := fun _ _ => .error (.evalError "no conversion")
  numCast := fun _ _ _ => .error "numCast"
  numToString := fun _ _ => .error "numToString"
  stringToNum := fun _ _ => .error "stringToNum"
  stringToDate := fun _ => .error "stringToDate"
  stringToTimestamp := fun _ _ _ => .error "stringToTimestamp"
  timestampToString := fun _ _ _ => .error "timestampToString"
  dateToTimestamp := fun _ _ => .error "dateToTimestamp"
  timestampToDate := fun _ _ => .error "timestampToDate"
  dateToString := fun _ => .error "dateToString"
  stringToTime := fun _ _ => .error "stringToTime"
  timeToString := fun _ _ => .error "timeToString"
  timestampToTime := fun _ _ => .error "timestampToTime"
  stringToDatetime := fun _ _ => .error "stringToDatetime"
  datetimeToString := fun _ _ => .error "datetimeToString"
  datetimeToTimestamp := fun _ _ => .error "datetimeToTimestamp"
  timestampToDatetime := fun _ _ => .error "timestampToDatetime"
  datetimeToDate := fun _ => .error "datetimeToDate"
  dateToDatetime := fun d => d
  datetimeToTime := fun _ => .error "datetimeToTime"
  parseJson := fun _ _ => .error "parseJson"
  utf8Ok := fun _ => true
  stringToProto := fun _ _ => .error "stringToProto"
  protoToString := fun _ _ => .error "protoToString"
  mapFieldTypes := fun _ => .error "mapFieldTypes"
  mapEntrySerialize := fun _ _ _ => .error "mapEntrySerialize"

/-- The number the integer→enum dispatch cases check against the enum
definition: `v.ToInt64()` for INT32, INT64 and UINT32 sources, and the
two's-complement wrap of the payload for UINT64 sources; `none` for any
other value. -/
def enumCastNumber : ZValue → Option Int
  | .int32 n => some n
  | .int64 n => some n
  | .uint32 n => some (n : Int)
  | .uint64 n => some (toInt64Wrap n)
  | _ => none

/-- The integer the out-of-range error message of the integer→enum cases
prints: `v.ToInt64()` for INT32, INT64 and UINT32 sources, the unsigned
payload (`v.uint64_value()`) for UINT64 sources. -/
def enumCastDisplay : ZValue → String
  | .int32 n => toString n
  | .int64 n => toString n
  | .uint32 n => toString (n : Int)
  | .uint64 n => toString n
  | _ => ""

/-- An enum definition whose only declared value number is -1, used by
the UINT64→ENUM wrap counterexample and witness. -/
def uintWrapEnum : EnumDef := ⟨"wrap.Enum", [(-1, "NEG")]⟩

/-- An enum definition whose declared value numbers are 0 and -5, used
by enum witnesses. -/
def sampleEnum : EnumDef := ⟨"sample.Enum", [(0, "ZERO"), (-5, "NEG_FIVE")]⟩

/-- A second definition of `sample.Enum` (equivalent by name, different
value list), used by the ENUM→ENUM witnesses. -/
def sampleEnumV2 : EnumDef := ⟨"sample.Enum", [(0, "ZERO")]⟩

/-- Whether a cast result is the dispatcher's Unimplemented error. -/
def resUnimpl {α : Type} : Except CastError α → Bool
  | .error (.unimplemented _) => true
  | _ => false

/-- The external conversion evaluators never produce the dispatcher's
Unimplemented error (the claim concerns the dispatch switch's own
default branch, not user-supplied conversion functions). -/
def ExtOk (env : Env) : Prop :=
  (∀ v t, resUnimpl (env.findConversionCast v t) = false) ∧
  (∀ v t, resUnimpl (env.suppliedConversionCast v t) = false)

/-- C4 counterexample: the claim "for every type kind K the static cast
table contains the identity entry (K, K)" fails at K = EXTENDED; extended
types are outside the built-in lattice and `InitializeZetaSQLCasts` adds
no row for them, so the lookup comes back empty. -/
theorem cast_table_identity_extended_missing :
    lookupCast (TypeKind.EXTENDED, TypeKind.EXTENDED) = none := by
  decide

/-- C4 (amended): for every type kind K other than EXTENDED, the static
cast table of `InitializeZetaSQLCasts` contains the identity entry (K, K)
and its cast class is IMPLICIT. -/
theorem cast_table_identity_nonextended (K : TypeKind) (h : K ≠ TypeKind.EXTENDED) :
    lookupCast (K, K) = some CastFunctionType.IMPLICIT := by
  cases K <;> first
    | exact absurd rfl h
    | decide

/-- C4 witness: the amended identity-row theorem applied at the concrete
kind ARRAY. -/
theorem cast_table_identity_nonextended_witness :
    lookupCast (TypeKind.ARRAY, TypeKind.ARRAY) = some CastFunctionType.IMPLICIT :=
  cast_table_identity_nonextended TypeKind.ARRAY (by decide)

/-- C5: the four predicates derived from `CastFunctionType` hold for
exactly the classes the spec lists: implicit coercion only for IMPLICIT;
literal coercion for IMPLICIT and both OR_LITERAL classes; parameter
coercion for IMPLICIT and EXPLICIT_OR_LITERAL_OR_PARAMETER; explicit cast
for all four classes. -/
theorem coercion_predicates_exact (t : CastFunctionType) :
    (SupportsImplicitCoercion t = true ↔ t = CastFunctionType.IMPLICIT) ∧
    (SupportsLiteralCoercion t = true ↔
      (t = CastFunctionType.IMPLICIT ∨
       t = CastFunctionType.EXPLICIT_OR_LITERAL ∨
       t = CastFunctionType.EXPLICIT_OR_LITERAL_OR_PARAMETER)) ∧
    (SupportsParameterCoercion t = true ↔
      (t = CastFunctionType.IMPLICIT ∨
       t = CastFunctionType.EXPLICIT_OR_LITERAL_OR_PARAMETER)) ∧
    SupportsExplicitCast t = true := by
  cases t <;> simp [SupportsImplicitCoercion, SupportsLiteralCoercion,
    SupportsParameterCoercion, SupportsExplicitCast]

/-- C5 witness: the predicate characterisation applied at the concrete
class EXPLICIT_OR_LITERAL. -/
theorem coercion_predicates_exact_witness :
    (SupportsImplicitCoercion CastFunctionType.EXPLICIT_OR_LITERAL = true ↔
      CastFunctionType.EXPLICIT_OR_LITERAL = CastFunctionType.IMPLICIT) ∧
    (SupportsLiteralCoercion CastFunctionType.EXPLICIT_OR_LITERAL = true ↔
      (CastFunctionType.EXPLICIT_OR_LITERAL = CastFunctionType.IMPLICIT ∨
       CastFunctionType.EXPLICIT_OR_LITERAL = CastFunctionType.EXPLICIT_OR_LITERAL ∨
       CastFunctionType.EXPLICIT_OR_LITERAL = CastFunctionType.EXPLICIT_OR_LITERAL_OR_PARAMETER)) ∧
    (SupportsParameterCoercion CastFunctionType.EXPLICIT_OR_LITERAL = true ↔
      (CastFunctionType.EXPLICIT_OR_LITERAL = CastFunctionType.IMPLICIT ∨
       CastFunctionType.EXPLICIT_OR_LITERAL = CastFunctionType.EXPLICIT_OR_LITERAL_OR_PARAMETER)) ∧
    SupportsExplicitCast CastFunctionType.EXPLICIT_OR_LITERAL = true :=
  coercion_predicates_exact CastFunctionType.EXPLICIT_OR_LITERAL

/-- C10: the coercion predicates form a chain of increasing
permissiveness: implicit implies parameter, parameter implies literal,
and literal implies explicit. -/
theorem coercion_predicates_monotone (t : CastFunctionType) :
    (SupportsImplicitCoercion t = true → SupportsParameterCoercion t = true) ∧
    (SupportsParameterCoercion t = true → SupportsLiteralCoercion t = true) ∧
    (SupportsLiteralCoercion t = true → SupportsExplicitCast t = true) := by
  cases t <;> simp [SupportsImplicitCoercion, SupportsLiteralCoercion,
    SupportsParameterCoercion, SupportsExplicitCast]

/-- C10 witness: the chain applied at the concrete class
EXPLICIT_OR_LITERAL_OR_PARAMETER, with the first link exercised. -/
theorem coercion_predicates_monotone_witness :
    (SupportsImplicitCoercion CastFunctionType.EXPLICIT_OR_LITERAL_OR_PARAMETER = true →
      SupportsParameterCoercion CastFunctionType.EXPLICIT_OR_LITERAL_OR_PARAMETER = true) ∧
    (SupportsParameterCoercion CastFunctionType.EXPLICIT_OR_LITERAL_OR_PARAMETER = true →
      SupportsLiteralCoercion CastFunctionType.EXPLICIT_OR_LITERAL_OR_PARAMETER = true) ∧
    (SupportsLiteralCoercion CastFunctionType.EXPLICIT_OR_LITERAL_OR_PARAMETER = true →
      SupportsExplicitCast CastFunctionType.EXPLICIT_OR_LITERAL_OR_PARAMETER = true) :=
  coercion_predicates_monotone CastFunctionType.EXPLICIT_OR_LITERAL_OR_PARAMETER


/-- C2: for every valid value v and target type T structurally equal to
the type of v, `CastContext::CastValue` returns v unchanged: the identity
short-circuit fires before any table lookup, NULL handling or dispatch,
for every context, including structured and extended types. -/
theorem cast_identity_shortcircuit (env : Env) (ctx : CastCtx) (v : ZValue)
    (t : ZType) (hval : v.isValid = true) (heq : v.typeOf = t) :
    castValue env ctx v t = .ok v := by
  rw [castValue]
  simp [hval, heq]

/-- C2 witness: the identity short-circuit at a concrete extended-typed
value, where any non-identity path would require a conversion that the
sample environment refuses. -/
theorem cast_identity_shortcircuit_witness :
    castValue sampleEnv (.withValidation true) (.extended 3 0) (.extended 3) =
      .ok (.extended 3 0) :=
  cast_identity_shortcircuit sampleEnv (.withValidation true) (.extended 3 0)
    (.extended 3) rfl rfl

/-- C1: casting NULL of a legal source type S to target T (neither type
extended, the kind pair in the static table) yields NULL of T; when S is
a non-simple type of the same kind as T and the Coercion Validator
rejects the pair, that SqlError is returned instead.  Stated for the
validated context the public `CastValue` uses. -/
theorem cast_null_of_legal_pair (env : Env) (c : Bool) (S T : ZType)
    (hS : S.isExtendedType = false) (hT : T.isExtendedType = false)
    (htab : containsCast (S.kind, T.kind) = true) :
    castValue env (.withValidation c) (.null S) T =
      if S ≠ T ∧ S.isSimpleType = false ∧ S.kind = T.kind ∧
          env.coercesTo (.null S) T = false then
        .error (.sqlError ("Unsupported cast from " ++ S.debugString ++
          " to " ++ T.debugString))
      else .ok (.null T) := by
  rw [castValue]
  by_cases hident : S = T
  · subst hident
    simp [ZValue.typeOf, ZValue.isValid]
  · have hmec : isMapEntryCast S T = false := by
      cases hm2 : isMapEntryCast S T
      · rfl
      · exfalso
        have h1 := isMapEntryCast_kind hm2
        have h2 := isMapEntryCast_target_kind hm2
        rw [h1, h2] at htab
        exact absurd htab (by decide)
    simp [hident, hS, hT, hmec, htab, castNull, validateCoercion,
      ZValue.typeOf, ZValue.isValid, ZValue.isNull]
    by_cases h1 : S.isSimpleType = false ∧ S.kind = T.kind
    · by_cases h2 : env.coercesTo (.null S) T
      · simp [h1.1, h1.2, h2]
      · simp [h1.1, h1.2, h2]
    · have hnc : ¬(S.isSimpleType = false ∧ S.kind = T.kind ∧
          env.coercesTo (ZValue.null S) T = false) := by
        intro hx
        exact h1 ⟨hx.1, hx.2.1⟩
      simp [hnc]
      intro hns hk
      exact absurd ⟨hns, hk⟩ h1

/-- C1 witness: NULL of a two-field struct type cast to a different
two-field struct type under the accepting sample validator becomes NULL
of the target type. -/
theorem cast_null_of_legal_pair_witness :
    castValue sampleEnv (.withValidation true)
      (.null (.struct [("a", .simple .INT32), ("b", .simple .STRING)]))
      (.struct [("a", .simple .INT64), ("b", .simple .STRING)]) =
      .ok (.null (.struct [("a", .simple .INT64), ("b", .simple .STRING)])) := by
  have h := cast_null_of_legal_pair sampleEnv true
    (.struct [("a", .simple .INT32), ("b", .simple .STRING)])
    (.struct [("a", .simple .INT64), ("b", .simple .STRING)])
    rfl rfl (by decide)
  simpa [sampleEnv] using h


/-- Shared lemma for the integer→enum dispatch cases: for INT32, INT64
and UINT32 sources the checked number is `v.ToInt64()`; for UINT64 it is
the two's-complement wrap; a declared number yields that enum value and
an undeclared one the out-of-range evaluation error printing the source
value. -/
theorem castToEnum_eq (env : Env) (ctx : CastCtx) (d : EnumDef) (v : ZValue)
    (i : Int) (hsrc : enumCastNumber v = some i) :
    castValue env ctx v (.enum d) =
      if d.validNumber i then .ok (.enum d i)
      else .error (.evalError ("Out of range cast of integer " ++
        enumCastDisplay v ++ " to enum type " ++ ZType.debugString (.enum d))) := by
  cases v <;> simp only [enumCastNumber, Option.some.injEq, reduceCtorEq] at hsrc
  case int32 n =>
    subst hsrc
    rw [castValue]
    simp [ZValue.typeOf, ZValue.isValid, ZValue.isNull, ZType.isExtendedType,
      isMapEntryCast, ZType.kind, SimpleKind.toTypeKind,
      (by decide : containsCast (TypeKind.INT32, TypeKind.ENUM) = true)]
    rfl
  case int64 n =>
    subst hsrc
    rw [castValue]
    simp [ZValue.typeOf, ZValue.isValid, ZValue.isNull, ZType.isExtendedType,
      isMapEntryCast, ZType.kind, SimpleKind.toTypeKind,
      (by decide : containsCast (TypeKind.INT64, TypeKind.ENUM) = true)]
    rfl
  case uint32 n =>
    subst hsrc
    rw [castValue]
    simp [ZValue.typeOf, ZValue.isValid, ZValue.isNull, ZType.isExtendedType,
      isMapEntryCast, ZType.kind, SimpleKind.toTypeKind,
      (by decide : containsCast (TypeKind.UINT32, TypeKind.ENUM) = true)]
    rfl
  case uint64 n =>
    subst hsrc
    rw [castValue]
    simp [ZValue.typeOf, ZValue.isValid, ZValue.isNull, ZType.isExtendedType,
      isMapEntryCast, ZType.kind, SimpleKind.toTypeKind,
      (by decide : containsCast (TypeKind.UINT64, TypeKind.ENUM) = true)]
    rfl

/-- `toInt64Wrap` on a value in the `uint64` range, written without the
modulus. -/
theorem toInt64Wrap_eq (u : Nat) (hu : u < 2 ^ 64) :
    toInt64Wrap u = if u < 2 ^ 63 then (u : Int) else (u : Int) - 2 ^ 64 := by
  unfold toInt64Wrap
  split <;> omega

/-- C6: a non-NULL struct value cast to a struct type of different arity
is a static SqlError ("Unsupported cast"), whatever the field values;
with matching arity each field is cast recursively in field order
(`castFields`), and the casted fields are reassembled at the target
type. -/
theorem struct_cast_arity (env : Env) (ctx : CastCtx)
    (fl : List (String × ZType)) (vals : List ZValue)
    (fl2 : List (String × ZType)) (hne : fl ≠ fl2) :
    castValue env ctx (.struct fl vals) (.struct fl2) =
      if fl.length ≠ fl2.length then
        .error (.sqlError ("Unsupported cast from " ++
          ZType.debugString (.struct fl) ++ " to " ++
          ZType.debugString (.struct fl2)))
      else
        match castFields env ctx vals (fl2.map (fun p => p.2)) with
        | .error e => .error e
        | .ok cs => .ok (.struct fl2 cs) := by
  rw [castValue]
  simp [hne, ZValue.typeOf, ZValue.isValid, ZValue.isNull, ZType.isExtendedType,
    isMapEntryCast, ZType.kind, ZValue.structVals, ZType.structFieldList,
    (by decide : containsCast (TypeKind.STRUCT, TypeKind.STRUCT) = true)]
  rw [castStructToStruct]
  by_cases hlen : fl.length = fl2.length
  · simp [hlen]
  · simp [hlen]

/-- C6 witness: a one-field struct cast to a two-field struct type is the
static arity error, independent of the value 1 it holds. -/
theorem struct_cast_arity_witness :
    castValue sampleEnv (.withValidation true)
      (.struct [("a", .simple .INT32)] [.int32 1])
      (.struct [("a", .simple .INT64), ("b", .simple .STRING)]) =
      .error (.sqlError ("Unsupported cast from " ++
        ZType.debugString (.struct [("a", .simple .INT32)]) ++ " to " ++
        ZType.debugString (.struct [("a", .simple .INT64), ("b", .simple .STRING)]))) := by
  have h := struct_cast_arity sampleEnv (.withValidation true)
    [("a", .simple .INT32)] [.int32 1]
    [("a", .simple .INT64), ("b", .simple .STRING)] (by decide)
  simpa using h

unseal EnumDef.validNumber toInt64Wrap in
/-- C7 counterexample: the uint64 value 2^64 - 1 does not name a value of
`wrap.Enum` (whose only number is -1), yet the cast succeeds, because the
UINT64→ENUM case first wraps the payload two's-complement to the int64
value -1.  The claim predicts a dynamic out-of-range error here. -/
theorem int_to_enum_uint64_wrap_counterexample :
    castValue sampleEnv (.withValidation true) (.uint64 (2 ^ 64 - 1))
      (.enum uintWrapEnum) = .ok (.enum uintWrapEnum (-1)) := by
  rw [castValue]
  rfl

/-- C7 (amended): for a non-NULL INT32, INT64 or UINT32 value the cast to
an enum type checks `v.ToInt64()` against the enum definition; for a
UINT64 value it checks the two's-complement wrap of the payload.  A
declared number yields that enum value; an undeclared one a dynamic
evaluation error whose message prints the source integer. -/
theorem int_to_enum_checked (env : Env) (ctx : CastCtx) (d : EnumDef)
    (v : ZValue) (i : Int) (hsrc : enumCastNumber v = some i) :
    castValue env ctx v (.enum d) =
      if d.validNumber i then .ok (.enum d i)
      else .error (.evalError ("Out of range cast of integer " ++
        enumCastDisplay v ++ " to enum type " ++ ZType.debugString (.enum d))) :=
  castToEnum_eq env ctx d v i hsrc

unseal EnumDef.validNumber in
/-- C7 witness: casting the int32 value 0 to `sample.Enum` (which
declares 0) succeeds with that enum value. -/
theorem int_to_enum_checked_witness :
    castValue sampleEnv (.withValidation true) (.int32 0) (.enum sampleEnum) =
      .ok (.enum sampleEnum 0) := by
  have h := int_to_enum_checked sampleEnv (.withValidation true) sampleEnum
    (.int32 0) 0 rfl
  simpa [(by decide : sampleEnum.validNumber 0 = true)] using h

/-- C8: a non-NULL enum value cast to a different enum type is a static
SqlError when the definitions are not equivalent (same full name),
independent of the value; when they are equivalent the number is
re-checked against the target definition, an undeclared number giving a
dynamic evaluation error. -/
theorem enum_to_enum_equivalence (env : Env) (ctx : CastCtx)
    (d d2 : EnumDef) (n : Int) (hne : d ≠ d2) :
    castValue env ctx (.enum d n) (.enum d2) =
      if ZType.equivalent (.enum d) (.enum d2) = false then
        .error (.sqlError ("Invalid enum cast from " ++
          ZType.debugString (.enum d) ++ " to " ++ ZType.debugString (.enum d2)))
      else if d2.validNumber n then .ok (.enum d2 n)
      else .error (.evalError ("Out of range enum value " ++ toString n ++
        " when converting enum type " ++ ZType.debugString (.enum d2) ++
        " to a different definition of the same enum")) := by
  rw [castValue]
  simp [hne, ZValue.typeOf, ZValue.isValid, ZValue.isNull, ZType.isExtendedType,
    isMapEntryCast, ZType.kind,
    (by decide : containsCast (TypeKind.ENUM, TypeKind.ENUM) = true)]
  rfl

unseal EnumDef.validNumber in
/-- C8 witness: two definitions of `sample.Enum` are equivalent by name;
the number -5 is declared by the source definition but not the target,
so the cast is the dynamic out-of-range error, not a static one. -/
theorem enum_to_enum_equivalence_witness :
    castValue sampleEnv (.withValidation true) (.enum sampleEnum (-5))
      (.enum sampleEnumV2) =
      .error (.evalError ("Out of range enum value " ++ toString (-5 : Int) ++
        " when converting enum type " ++ ZType.debugString (.enum sampleEnumV2) ++
        " to a different definition of the same enum")) := by
  have h := enum_to_enum_equivalence sampleEnv (.withValidation true)
    sampleEnum sampleEnumV2 (-5) (by decide)
  simpa [(by decide : ZType.equivalent (.enum sampleEnum) (.enum sampleEnumV2) = true),
    (by decide : sampleEnumV2.validNumber (-5) = false)] using h

/-- C9: casting a non-NULL UINT64 value u < 2^64 to an enum type first
wraps u two's-complement into int64; the cast succeeds exactly when the
wrapped number is declared by the enum definition — so u > 2^63 - 1 can
still succeed when the wrapped negative number is declared — and
otherwise fails with a dynamic error printing u. -/
theorem uint64_to_enum_wraps (env : Env) (ctx : CastCtx) (d : EnumDef)
    (u : Nat) (hu : u < 2 ^ 64) :
    castValue env ctx (.uint64 u) (.enum d) =
      if d.validNumber (if u < 2 ^ 63 then (u : Int) else (u : Int) - 2 ^ 64)
      then .ok (.enum d (if u < 2 ^ 63 then (u : Int) else (u : Int) - 2 ^ 64))
      else .error (.evalError ("Out of range cast of integer " ++ toString u ++
        " to enum type " ++ ZType.debugString (.enum d))) := by
  have h := castToEnum_eq env ctx d (.uint64 u) (toInt64Wrap u) rfl
  rw [toInt64Wrap_eq u hu] at h
  simpa [enumCastDisplay] using h

unseal EnumDef.validNumber in
/-- C9 witness: the uint64 value 2^64 - 5 is above the int64 range, wraps
to -5, and -5 is declared by `sample.Enum`, so the cast succeeds. -/
theorem uint64_to_enum_wraps_witness :
    castValue sampleEnv (.withValidation true) (.uint64 (2 ^ 64 - 5))
      (.enum sampleEnum) = .ok (.enum sampleEnum (-5)) := by
  have h := uint64_to_enum_wraps sampleEnv (.withValidation true) sampleEnum
    (2 ^ 64 - 5) (by norm_num)
  rw [h]
  rfl


/-- Lifted external conversion results are never the Unimplemented
error. -/
theorem resUnimpl_evalLift {α : Type} (r : Except String α) :
    resUnimpl (evalLift r) = false := by
  cases r <;> rfl

/-- `convToInt32` never yields the Unimplemented error. -/
theorem resUnimpl_convToInt32 (n : Int) : resUnimpl (convToInt32 n) = false := by
  unfold convToInt32; split <;> rfl

/-- `convToInt64` never yields the Unimplemented error. -/
theorem resUnimpl_convToInt64 (n : Int) : resUnimpl (convToInt64 n) = false := by
  unfold convToInt64; split <;> rfl

/-- `convToUint32` never yields the Unimplemented error. -/
theorem resUnimpl_convToUint32 (n : Int) : resUnimpl (convToUint32 n) = false := by
  unfold convToUint32; split <;> rfl

/-- `convToUint64` never yields the Unimplemented error. -/
theorem resUnimpl_convToUint64 (n : Int) : resUnimpl (convToUint64 n) = false := by
  unfold convToUint64; split <;> rfl

/-- `castIntToEnum` never yields the Unimplemented error. -/
theorem resUnimpl_castIntToEnum (i : Int) (d : EnumDef) :
    resUnimpl (castIntToEnum i d) = false := by
  unfold castIntToEnum; split <;> rfl

/-- `castUint64ToEnum` never yields the Unimplemented error. -/
theorem resUnimpl_castUint64ToEnum (n : Nat) (d : EnumDef) :
    resUnimpl (castUint64ToEnum n d) = false := by
  unfold castUint64ToEnum; split <;> rfl

/-- `castStringToEnum` never yields the Unimplemented error. -/
theorem resUnimpl_castStringToEnum (d : EnumDef) (s : String) :
    resUnimpl (castStringToEnum d s) = false := by
  unfold castStringToEnum; split <;> rfl

/-- `castEnumToEnum` never yields the Unimplemented error. -/
theorem resUnimpl_castEnumToEnum (d : EnumDef) (n : Int) (d2 : EnumDef) :
    resUnimpl (castEnumToEnum d n d2) = false := by
  unfold castEnumToEnum
  split
  · rfl
  · split <;> rfl

/-- `castProtoToProto` never yields the Unimplemented error. -/
theorem resUnimpl_castProtoToProto (d : ProtoDef) (w : String) (d2 : ProtoDef) :
    resUnimpl (castProtoToProto d w d2) = false := by
  unfold castProtoToProto; split <;> rfl

/-- `castBytesToString` never yields the Unimplemented error. -/
theorem resUnimpl_castBytesToString (env : Env) (b : String) :
    resUnimpl (castBytesToString env b) = false := by
  unfold castBytesToString; split <;> rfl

/-- `castStringToJson` never yields the Unimplemented error. -/
theorem resUnimpl_castStringToJson (env : Env) (s : String) :
    resUnimpl (castStringToJson env s) = false := by
  unfold castStringToJson
  split
  · rfl
  · split <;> rfl

/-- `castStringToProto` never yields the Unimplemented error. -/
theorem resUnimpl_castStringToProto (env : Env) (d : ProtoDef) (s : String) :
    resUnimpl (castStringToProto env d s) = false := by
  unfold castStringToProto; split <;> rfl

/-- `castProtoToString` never yields the Unimplemented error. -/
theorem resUnimpl_castProtoToString (env : Env) (d : ProtoDef) (w : String) :
    resUnimpl (castProtoToString env d w) = false := by
  unfold castProtoToString; split <;> rfl


set_option maxRecDepth 8000 in
set_option maxHeartbeats 1600000 in
/-- Coverage of the dispatch switch: for a valid, non-NULL value whose
kind pair is in the static cast table, whose type is not the target, and
which is not a STRUCT→STRUCT or ARRAY→ARRAY pair (those are intercepted
before `dispatchScalar`), some arm other than the Unimplemented default
fires. -/
theorem dispatchScalar_not_unimpl (env : Env) (v : ZValue) (t : ZType)
    (hvalid : v.isValid = true) (hnull : v.isNull = false)
    (hne : v.typeOf ≠ t)
    (htab : containsCast (v.typeOf.kind, t.kind) = true)
    (hss : ¬(v.typeOf.kind = TypeKind.STRUCT ∧ t.kind = TypeKind.STRUCT))
    (haa : ¬(v.typeOf.kind = TypeKind.ARRAY ∧ t.kind = TypeKind.ARRAY)) :
    resUnimpl (dispatchScalar env v t) = false := by
  cases v <;> cases t <;>
    first
      | exact absurd hvalid (of_decide_eq_false rfl)
      | exact absurd hnull (of_decide_eq_false rfl)
      | exact absurd rfl hne
      | exact absurd (And.intro rfl rfl) hss
      | exact absurd (And.intro rfl rfl) haa
      | exact absurd htab (of_decide_eq_false rfl)
      | rfl
      | (rename_i k
         cases k <;>
           first
             | exact absurd hvalid (of_decide_eq_false rfl)
             | exact absurd hnull (of_decide_eq_false rfl)
             | exact absurd rfl hne
             | exact absurd htab (of_decide_eq_false rfl)
             | rfl
             | exact resUnimpl_evalLift _
             | exact resUnimpl_convToInt32 _
             | exact resUnimpl_convToInt64 _
             | exact resUnimpl_convToUint32 _
             | exact resUnimpl_convToUint64 _
             | exact resUnimpl_castIntToEnum _ _
             | exact resUnimpl_castUint64ToEnum _ _
             | exact resUnimpl_castStringToEnum _ _
             | exact resUnimpl_castEnumToEnum _ _ _
             | exact resUnimpl_castProtoToProto _ _ _
             | exact resUnimpl_castBytesToString _ _
             | exact resUnimpl_castStringToJson _ _
             | exact resUnimpl_castStringToProto _ _ _
             | exact resUnimpl_castProtoToString _ _ _)

/-- An error produced at one result type is the Unimplemented error iff it
is at another; transfers `resUnimpl` facts across the `Except` payload
type. -/
theorem resUnimpl_error_transfer {α β : Type} {e : CastError}
    (h : resUnimpl (Except.error e : Except CastError α) = false) :
    resUnimpl (Except.error e : Except CastError β) = false := by
  cases e <;> simp [resUnimpl] at h ⊢

/-- A refusal of `ValidateCoercion` is a SqlError, never the dispatcher's
Unimplemented error. -/
theorem validateCoercion_error_not_unimpl {env : Env} {ctx : CastCtx}
    {v : ZValue} {t : ZType} {e : CastError}
    (h : validateCoercion env ctx v t = Except.error e) :
    resUnimpl (Except.error e : Except CastError ZValue) = false := by
  unfold validateCoercion at h
  cases ctx with
  | withValidation b =>
      by_cases hc : env.coercesTo v t = true
      · rw [if_pos hc] at h
        cases h
      · rw [if_neg hc] at h
        injection h with h
        rw [h.symm]
        rfl
  | withoutValidation b =>
      cases h

/-- `CastWithExtendedType` never produces the dispatcher's Unimplemented
error when the registered extended conversions do not. -/
theorem castWithExtendedType_not_unimpl (env : Env) (ctx : CastCtx)
    (v : ZValue) (t : ZType) (hext : ExtOk env) :
    resUnimpl (castWithExtendedType env ctx v t) = false := by
  unfold castWithExtendedType
  cases ctx with
  | withValidation b =>
      cases b
      · rfl
      · exact hext.1 v t
  | withoutValidation b =>
      cases b
      · rfl
      · exact hext.2 v t

/-- The NULL branch never produces the dispatcher's Unimplemented
error. -/
theorem castNull_not_unimpl (env : Env) (ctx : CastCtx) (v : ZValue)
    (t : ZType) : resUnimpl (castNull env ctx v t) = false := by
  unfold castNull
  split
  · cases hvc : validateCoercion env ctx v t with
    | error e => exact validateCoercion_error_not_unimpl hvc
    | ok u => rfl
  · rfl

/-- Main induction for the coverage claim: below any size bound, none of
the mutually recursive cast routines returns the dispatcher's
Unimplemented error, provided the registered extended conversions do
not.  The bound is the same padded measure that proves termination. -/
theorem castValue_not_unimpl_aux (env : Env) (hext : ExtOk env) :
    ∀ N : Nat,
      (∀ ctx v t, 2 * sizeOf v + 1 ≤ N →
        resUnimpl (castValue env ctx v t) = false) ∧
      (∀ vals d, 2 * sizeOf vals + 1 ≤ N →
        resUnimpl (doMapEntry env vals d) = false) ∧
      (∀ ctx fl vals fl2, 2 * sizeOf vals + 1 ≤ N →
        resUnimpl (castStructToStruct env ctx fl vals fl2) = false) ∧
      (∀ ctx vs ts, 2 * sizeOf vs ≤ N →
        resUnimpl (castFields env ctx vs ts) = false) ∧
      (∀ ctx vs et, 2 * sizeOf vs ≤ N →
        resUnimpl (castElems env ctx vs et) = false) := by
  intro N
  induction N using Nat.strong_induction_on with
  | _ N ih =>
  refine ⟨fun ctx v t hN => ?_, fun vals d hN => ?_,
    fun ctx fl vals fl2 hN => ?_, fun ctx vs ts hN => ?_,
    fun ctx vs et hN => ?_⟩
  · -- castValue
    rw [castValue]
    split
    · rfl
    next hv =>
    split
    · rfl
    next hne =>
    split
    next hx => exact castWithExtendedType_not_unimpl env ctx v t hext
    next hx =>
    split
    next hm =>
      have hm2 : isMapEntryCast v.typeOf t = true := by
        revert hm
        cases env.lang.protoMaps <;> simp
      have hlt := structVals_sizeOf_lt v hv (isMapEntryCast_kind hm2)
      exact (ih (N - 1) (by omega)).2.1 v.structVals t.protoDef (by omega)
    next hm =>
    split
    · rfl
    next htab =>
    split
    next hnull => exact castNull_not_unimpl env ctx v t
    next hnull =>
    split
    next hs =>
      have hlt := structVals_sizeOf_lt v hv hs.1
      exact (ih (N - 1) (by omega)).2.2.1 ctx v.typeOf.structFieldList
        v.structVals t.structFieldList (by omega)
    next hs =>
    split
    next ha =>
      have hlt := arrayElems_sizeOf_lt v hv ha.1
      split
      next e heq => exact validateCoercion_error_not_unimpl heq
      next u heq =>
        have helems := (ih (N - 1) (by omega)).2.2.2.2 ctx v.arrayElems
          t.arrayElemType (by omega)
        split
        next e2 heq2 =>
          rw [heq2] at helems
          exact resUnimpl_error_transfer helems
        next cs heq2 => rfl
    next ha =>
      refine dispatchScalar_not_unimpl env v t ?_ ?_ hne ?_ hs ha
      · revert hv
        cases v.isValid <;> simp
      · revert hnull
        cases v.isNull <;> simp
      · revert htab
        cases containsCast (v.typeOf.kind, t.kind) <;> simp
  · -- doMapEntry
    match vals with
    | [] => rw [doMapEntry]; rfl
    | _ :: [] => rw [doMapEntry]; rfl
    | _ :: _ :: _ :: _ => rw [doMapEntry]; rfl
    | kv :: vv :: [] =>
      rw [doMapEntry]
      have hkv : 2 * sizeOf kv + 1 ≤ N - 1 := by
        simp at hN
        omega
      have hvv : 2 * sizeOf vv + 1 ≤ N - 1 := by
        simp at hN
        omega
      have hNpos : 1 ≤ N := by omega
      split
      · rfl
      next kt vt heq =>
      split
      next e heq2 =>
        have h1 := (ih (N - 1) (by omega)).1 (.withValidation false) kv kt hkv
        rw [heq2] at h1
        exact resUnimpl_error_transfer h1
      next k heq2 =>
      split
      next e heq3 =>
        have h2 := (ih (N - 1) (by omega)).1 (.withValidation false) vv vt hvv
        rw [heq3] at h2
        exact resUnimpl_error_transfer h2
      next w heq3 =>
      split
      · rfl
      · rfl
  · -- castStructToStruct
    rw [castStructToStruct]
    split
    · rfl
    next hlen =>
      split
      next e heq =>
        have h1 := (ih (N - 1) (by omega)).2.2.2.1 ctx vals
          (fl2.map (fun p => p.2)) (by omega)
        rw [heq] at h1
        exact resUnimpl_error_transfer h1
      next cs heq => rfl
  · -- castFields
    match vs, ts with
    | [], _ => rw [castFields]; rfl
    | _ :: _, [] => rw [castFields]; rfl
    | fv :: rest, ft :: fts =>
      rw [castFields]
      have hsz : 1 + sizeOf fv + sizeOf rest = sizeOf (fv :: rest) := by
        simp
      have hrp := list_sizeOf_pos rest
      split
      next e heq =>
        have h1 := (ih (N - 1) (by omega)).1 ctx fv ft (by omega)
        rw [heq] at h1
        exact resUnimpl_error_transfer h1
      next c heq =>
        split
        next e heq2 =>
          have h2 := (ih (N - 1) (by omega)).2.2.2.1 ctx rest fts (by omega)
          rw [heq2] at h2
          exact resUnimpl_error_transfer h2
        next cs heq2 => rfl
  · -- castElems
    match vs with
    | [] => rw [castElems]; rfl
    | e :: rest =>
      rw [castElems]
      have hsz : 1 + sizeOf e + sizeOf rest = sizeOf (e :: rest) := by
        simp
      have hrp := list_sizeOf_pos rest
      have hep : 0 < sizeOf e := by
        cases e <;> simp
      split
      · split
        next er heq =>
          have h2 := (ih (N - 1) (by omega)).2.2.2.2 ctx rest et (by omega)
          rw [heq] at h2
          exact resUnimpl_error_transfer h2
        next cs heq => rfl
      · split
        next er heq =>
          have h1 := (ih (N - 1) (by omega)).1 ctx e et (by omega)
          rw [heq] at h1
          exact resUnimpl_error_transfer h1
        next c heq =>
          split
          next er heq2 =>
            have h2 := (ih (N - 1) (by omega)).2.2.2.2 ctx rest et (by omega)
            rw [heq2] at h2
            exact resUnimpl_error_transfer h2
          next cs heq2 => rfl


/-- C3: for every (fromKind, toKind) pair in the static cast table, a
valid, non-NULL, non-extended value of kind fromKind cast to a
non-extended target of kind toKind that is not structurally equal to the
value's type, and not the struct-to-map-entry special case, never yields
the dispatch switch's default Unimplemented error (assuming any
registered extended conversions do not themselves produce it) — the
dispatcher handles every pair the lattice declares legal. -/
theorem cast_dispatch_covers_lattice (env : Env) (ctx : CastCtx)
    (v : ZValue) (t : ZType)
    (hext : ExtOk env)
    (hvalid : v.isValid = true) (hnull : v.isNull = false)
    (hxv : v.typeOf.isExtendedType = false) (hxt : t.isExtendedType = false)
    (hne : v.typeOf ≠ t)
    (htab : containsCast (v.typeOf.kind, t.kind) = true)
    (hmap : isMapEntryCast v.typeOf t = false) :
    resUnimpl (castValue env ctx v t) = false :=
  (castValue_not_unimpl_aux env hext (2 * sizeOf v + 1)).1 ctx v t (le_refl _)

/-- C3 witness: the coverage theorem applied to the STRING→BOOL pair (in
the table) at the value "x" under the sample environment. -/
theorem cast_dispatch_covers_lattice_witness :
    resUnimpl (castValue sampleEnv (.withValidation true) (.string "x")
      (.simple .BOOL)) = false :=
  cast_dispatch_covers_lattice sampleEnv (.withValidation true) (.string "x")
    (.simple .BOOL) ⟨fun _ _ => rfl, fun _ _ => rfl⟩ rfl rfl rfl rfl
    (by decide) (by decide) rfl


end ZetaSQL
